import Mathlib

/-!
Verification development for the wlcontrol device-control core.

Each definition below is a shallow embedding of the corresponding Rust
function or state fragment of the repository (file and symbol named in the
doc comments).  Daemon interactions (D-Bus queries, stream subscriptions)
are modelled as explicit parameters holding the daemon's answers; the
single-threaded event loop is modelled as sequential application of
handlers; the spawned-task / mutex structure of the WiFi connect path is
modelled as an interleaving of atomic critical sections.
-/

namespace Wlcontrol

/-! ## String containment (Rust `str::contains`) -/

/-- Substring occurrence on character lists: `pat` occurs somewhere in `s`.
Mirrors Rust's `str::contains` (empty pattern matches everywhere). -/
def containsSub (s pat : List Char) : Bool :=
  match s with
  | [] => pat.isEmpty
  | _ :: rest => pat.isPrefixOf s || containsSub rest pat

/-- `strContains s pat` models Rust `s.contains(pat)`. -/
def strContains (s pat : String) : Bool :=
  containsSub s.data pat.data

/-! ## WiFi error translation — `src/backend/wifi_backend.rs`, `format_iwd_error` -/

/-- Embedding of `format_iwd_error` (wifi_backend.rs lines 13-34): the iwd
error string is pattern-matched in order to a fixed user-facing taxonomy. -/
def format_iwd_error (s : String) : String :=
  if strContains s "Aborted" || strContains s "Canceled" then
    "Connection cancelled"
  else if strContains s "InvalidFormat" || strContains s "InvalidArguments" then
    "Invalid password"
  else if strContains s "AuthenticationFailed" then
    "Wrong password"
  else if strContains s "NotConnected" then
    "Not connected"
  else if strContains s "Busy" then
    "Device is busy, try again"
  else if strContains s "NotFound" then
    "Network not found"
  else if strContains s "NoAgent" then
    "No agent registered"
  else if strContains s "Failed" then
    "Connection failed"
  else
    "Connection failed: " ++ s

/-! ## Canonical WiFi network state — `src/backend/wifi/network.rs` -/

/-- The canonical WiFi UI states (`WifiNetworkState` in network.rs). -/
inductive WifiNetworkState where
  | Available
  | Saved
  | SavedOffline
  | Connecting
  | Connected
  | Disconnecting
  | Forgetting
deriving DecidableEq, Repr

/-- The boolean flags a `WifiNetwork` object carries (iwd-derived
`connected`/`known`/`offline` plus the local operation flags). -/
structure WifiFlags where
  connected : Bool
  known : Bool
  offline : Bool
  connecting : Bool
  disconnecting : Bool
  forgetting : Bool
deriving DecidableEq, Repr

/-- Embedding of `WifiNetwork::state` (network.rs lines 140-160): the
early-return if-chain of the source, verbatim. -/
def wifiNetworkState (f : WifiFlags) : WifiNetworkState :=
  if f.forgetting then .Forgetting
  else if f.disconnecting then .Disconnecting
  else if f.connecting then .Connecting
  else if f.connected then .Connected
  else if f.known && f.offline then .SavedOffline
  else if f.known then .Saved
  else .Available

/-- First-match-wins resolution of a priority list of (condition, state)
pairs, with a default for when nothing matches. -/
def firstMatch {α : Type} (dflt : α) : List (Bool × α) → α
  | [] => dflt
  | (c, st) :: rest => if c then st else firstMatch dflt rest

/-- The WiFi state priority order as the SPEC words it ("priority order —
Forgetting > Disconnecting > Connecting > Connected > (known && offline →
SavedOffline) > (known → Saved) > Available"), written as a first-match
priority list to compare against the source's if-chain. -/
def wifiStateSpecPriority (f : WifiFlags) : WifiNetworkState :=
  firstMatch .Available
    [(f.forgetting, .Forgetting),
     (f.disconnecting, .Disconnecting),
     (f.connecting, .Connecting),
     (f.connected, .Connected),
     (f.known && f.offline, .SavedOffline),
     (f.known, .Saved)]

/-! ## Canonical Bluetooth device state — `src/backend/bluetooth/device.rs` -/

/-- The canonical Bluetooth UI states (`BtDeviceState` in device.rs). -/
inductive BtDeviceState where
  | Discovered
  | Paired
  | Pairing
  | Connecting
  | Connected
  | Disconnecting
  | Removing
deriving DecidableEq, Repr

/-- The boolean flags a `BtDevice` object carries. -/
structure BtStateFlags where
  paired : Bool
  connected : Bool
  connecting : Bool
  disconnecting : Bool
  removing : Bool
deriving DecidableEq, Repr

/-- Embedding of `BtDevice::state` (device.rs lines 265-286). -/
def btDeviceState (f : BtStateFlags) : BtDeviceState :=
  if f.removing then .Removing
  else if f.disconnecting then .Disconnecting
  else if f.connecting then
    (if f.paired then .Connecting else .Pairing)
  else if f.connected then .Connected
  else if f.paired then .Paired
  else .Discovered

/-- The Bluetooth state priority order as the SPEC words it ("Removing >
Disconnecting > Connecting (two sub-cases: Pairing if not yet paired, else
Connecting) > Connected > Paired > Discovered"), as a first-match list. -/
def btStateSpecPriority (f : BtStateFlags) : BtDeviceState :=
  firstMatch .Discovered
    [(f.removing, .Removing),
     (f.disconnecting, .Disconnecting),
     (f.connecting && f.paired, .Connecting),
     (f.connecting && !f.paired, .Pairing),
     (f.connected, .Connected),
     (f.paired, .Paired)]

/-! ## Saved-network rebuild — `src/backend/manager.rs` -/

/-- `WifiNetworkData` (manager.rs): a visible scan-snapshot entry. -/
structure WifiNetworkData where
  path : String
  name : String
  network_type : String
  signal_strength : Int
  connected : Bool
  known : Bool
deriving DecidableEq, Repr

/-- `KnownNetworkData` (manager.rs): a saved-network record. -/
structure KnownNetworkData where
  path : String
  name : String
  network_type : String
deriving DecidableEq, Repr

/-- Embedding of the visible-pair cache built in
`WlcontrolManager::update_wifi_networks` (manager.rs lines 383-404): the
set of (name, type) pairs of the current scan snapshot. -/
def visiblePairs (networks : List WifiNetworkData) : List (String × String) :=
  networks.map (fun n => (n.name, n.network_type))

/-- Embedding of `WlcontrolManager::rebuild_saved_networks` (manager.rs
lines 408-424): keep exactly the known entries whose (name, type) pair is
absent from the cached visible set. -/
def rebuild_saved_networks (known : List KnownNetworkData)
    (visible : List (String × String)) : List KnownNetworkData :=
  known.filter (fun d => !(decide ((d.name, d.network_type) ∈ visible)))

/-! ## Shared event vocabulary — `src/backend/manager.rs` `BackendEvent` -/

/-- `BtDeviceData` (manager.rs): the Bluetooth device snapshot shipped in
events.  `battery_percentage = -1` means unknown; `rssi = i16::MIN`
(-32768) means unknown. -/
structure BtDeviceData where
  address : String
  name : String
  alias_ : String
  icon : String
  paired : Bool
  trusted : Bool
  connected : Bool
  battery_percentage : Int
  rssi : Int
deriving DecidableEq, Repr

/-- Pairing-interaction kind carried by the `BtPairing` event
(`BtPairingKind` as used by event_loop/state.rs). -/
inductive BtPairingKind where
  | ConfirmPasskey (code : String)
  | RequestPin
  | RequestPasskey
  | DisplayPasskey (code : String)
  | DisplayPin (code : String)
  | Authorize
deriving DecidableEq, Repr

/-- The backend→UI event protocol (`BackendEvent`, manager.rs lines
86-114, together with the `BtError` variant used by
bluetooth/backend.rs).  Payloads irrelevant to the claims keep their
shape but carry the modelled data types. -/
inductive BackendEvent where
  | WifiPowered (powered : Bool)
  | WifiScanning (scanning : Bool)
  | WifiNetworks (networks : List WifiNetworkData)
  | WifiConnected (path : Option String)
  | WifiConnecting (path : String)
  | WifiNetworkKnown (path : String)
  | WifiKnownNetworks (known : List KnownNetworkData)
  | PassphraseRequest (network_path network_name : String)
  | CaptivePortal (url : String)
  | BtPowered (powered : Bool)
  | BtDiscovering (discovering : Bool)
  | BtDiscoverable (discoverable : Bool)
  | BtConnecting (address : String)
  | BtDeviceAdded (data : BtDeviceData)
  | BtDeviceChanged (data : BtDeviceData)
  | BtDeviceRemoved (address : String)
  | BtPairing (kind : BtPairingKind) (address : String)
  | Error (msg : String)
  | BtError (msg : String)
deriving DecidableEq, Repr

/-! ## WiFi connect task — `src/backend/wifi_backend.rs`, `WifiBackend::connect` -/

/-- Outcome of the spawned connect task's daemon interaction
(wifi_backend.rs lines 258-290): proxy creation failed, `network.connect()`
succeeded, failed with an error string, or hit the 60-second timeout. -/
inductive ConnectOutcome where
  | proxyError
  | success
  | failure (e : String)
  | timeout
deriving DecidableEq, Repr

/-- The daemon's station view at re-query time: whether the Station
interface exists on the device, and what `connected_network()` answers
(`none` = query failed or no network connected). -/
structure IwdStationView where
  hasStation : Bool
  connectedNetwork : Option String
deriving DecidableEq, Repr

/-- Embedding of `WifiBackend::get_connected_network_static`
(wifi_backend.rs lines 303-318): `none` when there is no device path or no
Station interface, otherwise the daemon's `connected_network()` answer. -/
def get_connected_network_static (device_path : Option String)
    (v : IwdStationView) : Option String :=
  match device_path with
  | none => none
  | some _ => if v.hasStation then v.connectedNetwork else none

/-- Embedding of the event sequence emitted by the spawned connect task in
`WifiBackend::connect` (wifi_backend.rs lines 255-295): `WifiConnecting`
first, then per outcome.  On failure and timeout the daemon is re-queried
(`get_connected_network_static`) and the answer is forwarded verbatim. -/
def connectTaskEvents (path : String) (device_path : Option String)
    (v : IwdStationView) : ConnectOutcome → List BackendEvent
  | .proxyError =>
      [.WifiConnecting path, .WifiConnected none, .Error "Invalid network path"]
  | .success =>
      [.WifiConnecting path, .WifiConnected (some path), .WifiNetworkKnown path]
  | .failure e =>
      [.WifiConnecting path,
       .WifiConnected (get_connected_network_static device_path v),
       .Error (format_iwd_error e)]
  | .timeout =>
      [.WifiConnecting path,
       .WifiConnected (get_connected_network_static device_path v),
       .Error "Connection timed out"]

/-! ## Station-interface backoff — `src/backend/event_loop/helpers.rs` -/

/-- The sleep used after attempt `attempt` in `wait_for_station_proxy`
(helpers.rs line 74): `50 * (1 << attempt.min(4))` milliseconds. -/
def backoffDelay (attempt : Nat) : Nat :=
  50 * 2 ^ (min attempt 4)

/-- Simulation of the `for attempt in 0..max_attempts` loop of
`wait_for_station_proxy` (helpers.rs lines 63-83), recursing on the number
of attempts remaining.  `found` tells whether `create_station_proxy`
succeeds at a given attempt index.  Returns the attempt at which the
station appeared (`none` = gave up) and the list of sleeps performed (a
sleep happens only when `attempt + 1 < max_attempts`). -/
def waitAttempts (found : Nat → Bool) (attempt : Nat) :
    Nat → Option Nat × List Nat
  | 0 => (none, [])
  | remaining + 1 =>
    if found attempt then (some attempt, [])
    else if remaining = 0 then (none, [])
    else
      let rest := waitAttempts found (attempt + 1) remaining
      (rest.1, backoffDelay attempt :: rest.2)

/-- Embedding of `wait_for_station_proxy` (helpers.rs lines 63-83). -/
def wait_for_station_proxy_sim (found : Nat → Bool) (maxAttempts : Nat) :
    Option Nat × List Nat :=
  waitAttempts found 0 maxAttempts

/-- Embedding of `setup_station_streams_with_retry` (helpers.rs lines
102-115): polls for the Station interface with `max_attempts = 10`; the
scanning/state property streams are subscribed only if polling found it. -/
def setup_station_streams_with_retry_sim (found : Nat → Bool) :
    Option Nat × List Nat :=
  wait_for_station_proxy_sim found 10

/-! ## Bluetooth adapter events — `src/backend/bluetooth/backend.rs` -/

/-- The daemon's view of one Bluetooth device, as the queries of
`BluetoothBackend` see it while one adapter event is handled (the core is
single-threaded, so the daemon snapshot is fixed for the duration of the
handler):
`devOk` = `adapter.device(addr)` returned `Ok`;
`paired` = what `device.is_paired()` answers (`unwrap_or(false)` folded
in, so a failed query reads as `false`; the benign removal race of the
design notes is the `paired = false` case);
the remaining fields are the property answers read by `read_device_data`
with their `unwrap_or` defaults folded in;
`eventsOk` = `device.events()` subscription succeeded. -/
structure BtDevView where
  devOk : Bool
  paired : Bool
  name : String
  alias_ : String
  icon : String
  trusted : Bool
  connected : Bool
  battery_percentage : Int
  rssi : Int
  eventsOk : Bool
deriving DecidableEq, Repr

/-- The `BtDeviceData` assembled by `read_device_data` for address `addr`
under daemon view `v`. -/
def btDataOf (addr : String) (v : BtDevView) : BtDeviceData :=
  { address := addr
    name := v.name
    alias_ := v.alias_
    icon := v.icon
    paired := v.paired
    trusted := v.trusted
    connected := v.connected
    battery_percentage := v.battery_percentage
    rssi := v.rssi }

/-- Embedding of `BluetoothBackend::read_device_data` (backend.rs lines
282-311): every field is read with an `unwrap_or` default, so the function
always returns `Some`. -/
def read_device_data (addr : String) (v : BtDevView) : Option BtDeviceData :=
  some (btDataOf addr v)

/-- Embedding of `BluetoothBackend::start_tracking_device` (backend.rs
lines 314-333): a no-op if the address is already tracked; otherwise the
address joins the tracked set only if the per-device event subscription
succeeds (on failure the source merely logs a warning). -/
def start_tracking_device (addr : String) (v : BtDevView)
    (tracked : List String) : List String :=
  if tracked.contains addr then tracked
  else if v.eventsOk then addr :: tracked
  else tracked

/-- Embedding of `BluetoothBackend::rebuild_device_streams` (backend.rs
lines 337-352): drain the tracked set and re-track every address whose
device handle and event subscription are available. -/
def rebuild_device_streams (view : String → BtDevView)
    (tracked : List String) : List String :=
  tracked.foldl
    (fun acc addr =>
      if (view addr).devOk then start_tracking_device addr (view addr) acc
      else acc)
    []

/-- `bluer::AdapterEvent` as consumed by `handle_adapter_event`
(the `PropertyChanged` payloads the source inspects, plus a catch-all). -/
inductive BtAdapterEvent where
  | DeviceAdded (addr : String)
  | DeviceRemoved (addr : String)
  | PropertyDiscoverable (discoverable : Bool)
  | PropertyPowered (powered : Bool)
  | PropertyOther
deriving DecidableEq, Repr

/-- Embedding of `BluetoothBackend::handle_adapter_event` (backend.rs
lines 355-424).  `adapterPresent` models `self.adapter.is_some()`; `view`
is the daemon's per-address answer sheet.  Returns the updated tracked set
and the emitted events.
`DeviceAdded`: noise filter (empty name and alias equal to the address)
drops the device, otherwise track + `BtDeviceAdded`.
`DeviceRemoved`: the address is removed from the tracked set first; the
daemon is then re-queried — if the device still exists and is paired, it is
re-tracked and a `BtDeviceChanged` is emitted instead of `BtDeviceRemoved`. -/
def handle_adapter_event (adapterPresent : Bool) (view : String → BtDevView)
    (ev : BtAdapterEvent) (tracked : List String) :
    List String × List BackendEvent :=
  if !adapterPresent then (tracked, [])
  else
    match ev with
    | .DeviceAdded addr =>
        let v := view addr
        if v.devOk then
          match read_device_data addr v with
          | some data =>
              if data.name == "" && data.alias_ == data.address then
                (tracked, [])
              else
                (start_tracking_device addr v tracked, [.BtDeviceAdded data])
          | none => (tracked, [])
        else (tracked, [])
    | .DeviceRemoved addr =>
        let tracked1 := tracked.erase addr
        let v := view addr
        if v.devOk && v.paired then
          match read_device_data addr v with
          | some data =>
              (start_tracking_device addr v tracked1, [.BtDeviceChanged data])
          | none => (tracked1, [.BtDeviceRemoved addr])
        else (tracked1, [.BtDeviceRemoved addr])
    | .PropertyDiscoverable b => (tracked, [.BtDiscoverable b])
    | .PropertyPowered b => (tracked, [.BtPowered b])
    | .PropertyOther => (tracked, [])

/-! ## Event loop — `src/backend/event_loop/{mod,state,streams}.rs`

The event loop is single-threaded: one `LoopEvent` is handled at a time,
so `handle_event` is embedded as a pure step function on the modelled
state.  Daemon answers consulted inside one handler are supplied by a
`LoopEnv`.  Backend helpers whose emitted events matter to a claim
(`start_scan`, `notify_scan_stopped`, `set_powered`, `set_discoverable`,
`send_initial_state`, `handle_adapter_event`,
`handle_device_property_change`) are expanded; the remaining
daemon-facing backend methods are recorded as opaque `CallOut` values, and
the hot-plug reconciliation handlers (`handle_iwd_device_added/_removed`,
not touched by any claim) are likewise left opaque. -/

/-- The UI→backend command protocol (`BackendCommand`, manager.rs lines
23-51, plus the `WifiSwitchAdapter` command handled by state.rs). -/
inductive BackendCommand where
  | Shutdown
  | PassphraseResponse (passphrase : Option String)
  | WifiScan
  | WifiConnect (path : String)
  | WifiDisconnect
  | WifiForget (path : String)
  | WifiForgetKnown (path : String)
  | WifiSetPowered (powered : Bool)
  | WifiSwitchAdapter (device_path : String)
  | BtScan
  | BtStopScan
  | BtConnect (path : String)
  | BtDisconnect (path : String)
  | BtPair (path : String)
  | BtRemove (path : String)
  | BtSetAlias (path alias_ : String)
  | BtSetTrusted (path : String) (trusted : Bool)
  | BtSetPowered (powered : Bool)
  | BtSetDiscoverable (discoverable : Bool)
  | BtPairingResponse (accept : Bool)
  | BtPairingPinResponse (pin : Option String)
  | BtPairingPasskeyResponse (passkey : Option Nat)
deriving DecidableEq, Repr

/-- `bluer::DeviceProperty` as inspected by
`handle_device_property_change` (backend.rs lines 427-459): the eight
properties the source reacts to, and a catch-all for the rest. -/
inductive BtDeviceProperty where
  | Name
  | Alias
  | Icon
  | Paired
  | Trusted
  | Connected
  | BatteryPercentage
  | Rssi
  | Other
deriving DecidableEq, Repr

/-- `BtPairingRequest` (backend.rs lines 45-77): one agent callback,
with its reply channel left implicit (the loop installs the corresponding
pending slot). -/
inductive BtPairingRequest where
  | ConfirmPasskey (address : String) (passkey : Nat)
  | RequestPinCode (address : String)
  | RequestPasskey (address : String)
  | DisplayPasskey (address : String) (passkey : Nat)
  | DisplayPinCode (address : String) (pin_code : String)
  | RequestAuthorization (address : String)
deriving DecidableEq, Repr

/-- `LoopEvent` (event_loop/mod.rs lines 25-42). -/
inductive LoopEvent where
  | WifiPoweredChanged (powered : Bool)
  | WifiScanningChanged (scanning : Bool)
  | WifiStationStateChanged (state : String)
  | PassphraseRequest (network_path network_name : String)
  | IwdDeviceAdded (object_path : String)
  | IwdDeviceRemoved (object_path : String)
  | BtDiscoveryEvent (ev : BtAdapterEvent)
  | BtAdapterEvent (ev : BtAdapterEvent)
  | BtDevicePropertyChanged (address : String) (property : BtDeviceProperty)
  | BtPairingRequest (req : BtPairingRequest)
  | BtScanTimeout
  | Command (cmd : BackendCommand)
  | CommandChannelClosed
deriving DecidableEq, Repr

/-- `LoopAction` (state.rs lines 17-20). -/
inductive LoopAction where
  | Continue
  | Break
deriving DecidableEq, Repr

/-- Oneshot replies sent to pending daemon callbacks: passphrase answer to
the iwd agent, accept/reject, PIN or passkey to the BlueZ agent
(`Err(Rejected)` is modelled as `none` / `accept = false`). -/
inductive ReplyOut where
  | passphrase (p : Option String)
  | pairing (accept : Bool)
  | pin (p : Option String)
  | passkey (k : Option Nat)
deriving DecidableEq, Repr

/-- Opaque daemon-facing backend calls recorded by the loop model. -/
inductive CallOut where
  | wifiShutdown
  | wifiScan
  | wifiConnect (path : String)
  | wifiDisconnect
  | wifiForget (path : String)
  | wifiForgetKnown (path : String)
  | wifiSetPowered (powered : Bool)
  | wifiSwitchAdapter (device_path : String)
  | wifiSendInitialState
  | wifiSendNetworks
  | wifiSendKnownNetworks
  | wifiSendConnectedStatus
  | btConnect (path : String)
  | btDisconnect (path : String)
  | btPair (path : String)
  | btRemove (path : String)
  | btSetAlias (path alias_ : String)
  | btSetTrusted (path : String) (trusted : Bool)
  | btRebuildDeviceStreams
  | iwdDeviceAddedReenumerate (path : String)
  | iwdDeviceRemovedReconcile (path : String)
deriving DecidableEq, Repr

/-- One observable output of a handler: a `BackendEvent` sent to the UI, a
oneshot reply, or an opaque backend call. -/
inductive LoopOut where
  | event (e : BackendEvent)
  | reply (r : ReplyOut)
  | call (c : CallOut)
deriving DecidableEq, Repr

/-- The modelled fragment of `BackendState` + `EventStreams` (state.rs
lines 22-33, streams.rs): option-typed handles become booleans
(`is_some`), the scan deadline keeps its instant, the tracked-device set
is a list of addresses, and each pending reply slot is a boolean
(occupied or not). -/
structure LoopState where
  wifiPresent : Bool
  wifiDevice : Bool
  btPresent : Bool
  adapterPresent : Bool
  discovery : Bool
  deadline : Option Nat
  adapterEv : Bool
  devicePoweredStream : Bool
  scanningStream : Bool
  stateStream : Bool
  tracked : List String
  pendingPassphrase : Bool
  pendingPairing : Bool
  pendingPin : Bool
  pendingPasskey : Bool
deriving DecidableEq, Repr

/-- Daemon answers consulted while one `LoopEvent` is handled. -/
structure LoopEnv where
  now : Nat
  scanStartOk : Bool
  scanErrMsg : String
  adapterEventsOk : Bool
  stationAfterRetry : Bool
  stationNow : Bool
  devProxyOk : Bool
  setPoweredOk : Bool
  setPoweredErr : String
  actualPowered : Option Bool
  setDiscoverableOk : Bool
  setDiscoverableErr : String
  actualDiscoverable : Option Bool
  btPoweredQuery : Option Bool
  btDiscoverableQuery : Option Bool
  view : String → BtDevView
  deviceAddrs : List String

/-- Result of handling one `LoopEvent`. -/
structure StepResult where
  state : LoopState
  outs : List LoopOut
  action : LoopAction
deriving DecidableEq, Repr

/-- Embedding of `BluetoothBackend::start_scan` (backend.rs lines
462-479): returns whether a discovery stream now exists and the emitted
events (`BtDiscovering(true)` on success, a translated error on failure,
nothing when no adapter exists). -/
def start_scan_sim (adapterPresent scanStartOk : Bool) (errMsg : String) :
    Bool × List BackendEvent :=
  if !adapterPresent then (false, [])
  else if scanStartOk then (true, [.BtDiscovering true])
  else (false, [.BtError errMsg])

/-- Embedding of `BluetoothBackend::set_powered` (backend.rs lines
668-685): on failure the error is reported and the actual daemon state is
sent back for rollback. -/
def set_powered_sim (adapterPresent ok : Bool) (errMsg : String)
    (actual : Option Bool) (powered : Bool) : List BackendEvent :=
  if !adapterPresent then []
  else if ok then [.BtPowered powered]
  else
    [.BtError errMsg] ++
      (match actual with
       | some a => [.BtPowered a]
       | none => [])

/-- Embedding of `BluetoothBackend::set_discoverable` (backend.rs lines
688-711), same rollback shape as `set_powered`. -/
def set_discoverable_sim (adapterPresent ok : Bool) (errMsg : String)
    (actual : Option Bool) (discoverable : Bool) : List BackendEvent :=
  if !adapterPresent then []
  else if ok then [.BtDiscoverable discoverable]
  else
    [.BtError errMsg] ++
      (match actual with
       | some a => [.BtDiscoverable a]
       | none => [])

/-- Embedding of `BluetoothBackend::send_initial_state` (backend.rs lines
223-263): report powered/discoverable, then track and announce every
already paired or connected device. -/
def send_initial_state_sim (adapterPresent : Bool)
    (poweredQ discoverableQ : Option Bool) (view : String → BtDevView)
    (addrs : List String) (tracked : List String) :
    List String × List BackendEvent :=
  if !adapterPresent then (tracked, [])
  else
    let evs1 : List BackendEvent :=
      match poweredQ with
      | some b => [.BtPowered b]
      | none => []
    let evs2 : List BackendEvent :=
      match discoverableQ with
      | some b => [.BtDiscoverable b]
      | none => []
    let r := addrs.foldl
      (fun (acc : List String × List BackendEvent) addr =>
        let v := view addr
        if v.devOk then
          let data := btDataOf addr v
          if data.paired || data.connected then
            (start_tracking_device addr v acc.1, acc.2 ++ [.BtDeviceAdded data])
          else acc
        else acc)
      (tracked, [])
    (r.1, evs1 ++ evs2 ++ r.2)

/-- Embedding of `BluetoothBackend::handle_device_property_change`
(backend.rs lines 427-459): react only to the eight dominated properties,
re-read the device and emit a `BtDeviceChanged`. -/
def dominatedProp : BtDeviceProperty → Bool
  | .Other => false
  | _ => true

/-- The event list emitted by `handle_device_property_change`. -/
def handle_device_property_change_sim (adapterPresent : Bool)
    (view : String → BtDevView) (addr : String) (prop : BtDeviceProperty) :
    List BackendEvent :=
  if !dominatedProp prop then []
  else if !adapterPresent then []
  else if (view addr).devOk then [.BtDeviceChanged (btDataOf addr (view addr))]
  else []

/-- Rust's `format!("{:06}", n)`: decimal, left-padded with zeros to six
characters. -/
def format06 (n : Nat) : String :=
  let s := toString n
  String.mk (List.replicate (6 - s.length) '0') ++ s

/-- Embedding of `BackendState::handle_bt_pairing_request` (state.rs lines
343-389): install the pending reply slot matching the interaction kind
(display-only kinds install none) and emit the `BtPairing` event. -/
def handle_bt_pairing_request_sim (s : LoopState) :
    BtPairingRequest → LoopState × BackendEvent
  | .ConfirmPasskey a k =>
      ({ s with pendingPairing := true }, .BtPairing (.ConfirmPasskey (format06 k)) a)
  | .RequestPinCode a =>
      ({ s with pendingPin := true }, .BtPairing .RequestPin a)
  | .RequestPasskey a =>
      ({ s with pendingPasskey := true }, .BtPairing .RequestPasskey a)
  | .DisplayPasskey a k =>
      (s, .BtPairing (.DisplayPasskey (format06 k)) a)
  | .DisplayPinCode a pc =>
      (s, .BtPairing (.DisplayPin pc) a)
  | .RequestAuthorization a =>
      ({ s with pendingPairing := true }, .BtPairing .Authorize a)

/-- Embedding of `BackendState::handle_command` (state.rs lines 170-341).
Every branch returns `Continue` except `Shutdown`. -/
def handle_command (env : LoopEnv) (s : LoopState) :
    BackendCommand → StepResult
  | .Shutdown =>
      { state := { s with discovery := false }
        outs := if s.wifiPresent then [.call .wifiShutdown] else []
        action := .Break }
  | .PassphraseResponse p =>
      { state := { s with pendingPassphrase := false }
        outs := if s.pendingPassphrase then [.reply (.passphrase p)] else []
        action := .Continue }
  | .WifiScan =>
      { state := s
        outs := if s.wifiPresent then [.call .wifiScan] else []
        action := .Continue }
  | .WifiConnect p =>
      { state := s
        outs := if s.wifiPresent then [.call (.wifiConnect p)] else []
        action := .Continue }
  | .WifiDisconnect =>
      { state := s
        outs := if s.wifiPresent then [.call .wifiDisconnect] else []
        action := .Continue }
  | .WifiForget p =>
      { state := s
        outs := if s.wifiPresent then [.call (.wifiForget p)] else []
        action := .Continue }
  | .WifiForgetKnown p =>
      { state := s
        outs := if s.wifiPresent then [.call (.wifiForgetKnown p)] else []
        action := .Continue }
  | .WifiSetPowered b =>
      { state := s
        outs := if s.wifiPresent then [.call (.wifiSetPowered b)] else []
        action := .Continue }
  | .WifiSwitchAdapter dp =>
      { state := { s with
                     wifiPresent := true
                     wifiDevice := true
                     devicePoweredStream := env.devProxyOk
                     scanningStream := env.stationNow
                     stateStream := env.stationNow }
        outs := (if s.wifiPresent then [.call .wifiShutdown] else []) ++
          [.call (.wifiSwitchAdapter dp), .call .wifiSendInitialState]
        action := .Continue }
  | .BtScan =>
      if !s.discovery && s.btPresent then
        let r := start_scan_sim s.adapterPresent env.scanStartOk env.scanErrMsg
        { state := { s with
                       discovery := r.1
                       deadline := if r.1 then some (env.now + 30) else s.deadline }
          outs := r.2.map .event
          action := .Continue }
      else { state := s, outs := [], action := .Continue }
  | .BtStopScan =>
      if s.discovery then
        { state := { s with
                       discovery := false
                       deadline := none
                       tracked := if s.btPresent then
                           rebuild_device_streams env.view s.tracked
                         else s.tracked }
          outs := if s.btPresent then
              [.event (.BtDiscovering false), .call .btRebuildDeviceStreams]
            else []
          action := .Continue }
      else { state := s, outs := [], action := .Continue }
  | .BtConnect p =>
      { state := s
        outs := if s.btPresent then [.call (.btConnect p)] else []
        action := .Continue }
  | .BtDisconnect p =>
      { state := s
        outs := if s.btPresent then [.call (.btDisconnect p)] else []
        action := .Continue }
  | .BtPair p =>
      { state := s
        outs := if s.btPresent then [.call (.btPair p)] else []
        action := .Continue }
  | .BtRemove p =>
      { state := s
        outs := if s.btPresent then [.call (.btRemove p)] else []
        action := .Continue }
  | .BtSetAlias p a =>
      { state := s
        outs := if s.btPresent then [.call (.btSetAlias p a)] else []
        action := .Continue }
  | .BtSetTrusted p t =>
      { state := s
        outs := if s.btPresent then [.call (.btSetTrusted p t)] else []
        action := .Continue }
  | .BtSetPowered b =>
      let s1 := if !b then
          { s with
              discovery := false
              deadline := none
              tracked := []
              adapterEv := false }
        else s
      let evs1 : List BackendEvent :=
        if !b && s.discovery && s.btPresent then [.BtDiscovering false] else []
      if s.btPresent then
        let pevs := set_powered_sim s.adapterPresent env.setPoweredOk
          env.setPoweredErr env.actualPowered b
        if b then
          let r := send_initial_state_sim s.adapterPresent env.btPoweredQuery
            env.btDiscoverableQuery env.view env.deviceAddrs s1.tracked
          { state := { s1 with
                         tracked := r.1
                         adapterEv := s.adapterPresent && env.adapterEventsOk }
            outs := (evs1 ++ pevs ++ r.2).map .event
            action := .Continue }
        else
          { state := s1, outs := (evs1 ++ pevs).map .event, action := .Continue }
      else { state := s1, outs := evs1.map .event, action := .Continue }
  | .BtSetDiscoverable b =>
      { state := s
        outs := if s.btPresent then
            (set_discoverable_sim s.adapterPresent env.setDiscoverableOk
              env.setDiscoverableErr env.actualDiscoverable b).map .event
          else []
        action := .Continue }
  | .BtPairingResponse accept =>
      { state := { s with pendingPairing := false }
        outs := if s.pendingPairing then [.reply (.pairing accept)] else []
        action := .Continue }
  | .BtPairingPinResponse pin =>
      { state := { s with pendingPin := false }
        outs := if s.pendingPin then [.reply (.pin pin)] else []
        action := .Continue }
  | .BtPairingPasskeyResponse k =>
      { state := { s with pendingPasskey := false }
        outs := if s.pendingPasskey then [.reply (.passkey k)] else []
        action := .Continue }

/-- Embedding of `BackendState::handle_event` (state.rs lines 36-168).
Only `Command(Shutdown)` (via `handle_command`) and `CommandChannelClosed`
yield `Break`. -/
def handle_event (env : LoopEnv) (s : LoopState) : LoopEvent → StepResult
  | .BtScanTimeout =>
      { state := { s with discovery := false, deadline := none }
        outs := if s.discovery && s.btPresent then
            [.event (.BtDiscovering false)]
          else []
        action := .Continue }
  | .WifiPoweredChanged b =>
      if s.wifiPresent && s.wifiDevice then
        if b then
          { state := { s with
                         scanningStream := env.stationAfterRetry
                         stateStream := env.stationAfterRetry }
            outs := [.event (.WifiPowered b), .call .wifiSendNetworks,
              .call .wifiSendKnownNetworks]
            action := .Continue }
        else
          { state := { s with scanningStream := false, stateStream := false }
            outs := [.event (.WifiPowered b), .event (.WifiNetworks [])]
            action := .Continue }
      else
        { state := s, outs := [.event (.WifiPowered b)], action := .Continue }
  | .WifiScanningChanged b =>
      { state := s
        outs := [.event (.WifiScanning b)] ++
          (if !b && s.wifiPresent then
            [.call .wifiSendNetworks, .call .wifiSendKnownNetworks]
          else [])
        action := .Continue }
  | .WifiStationStateChanged _ =>
      { state := s
        outs := if s.wifiPresent then [.call .wifiSendConnectedStatus] else []
        action := .Continue }
  | .PassphraseRequest p n =>
      { state := { s with pendingPassphrase := true }
        outs := [.event (.PassphraseRequest p n)]
        action := .Continue }
  | .BtDiscoveryEvent ev =>
      if s.btPresent then
        let r := handle_adapter_event s.adapterPresent env.view ev s.tracked
        { state := { s with tracked := r.1 }
          outs := r.2.map .event
          action := .Continue }
      else { state := s, outs := [], action := .Continue }
  | .BtAdapterEvent ev =>
      if s.btPresent then
        let r := handle_adapter_event s.adapterPresent env.view ev s.tracked
        { state := { s with tracked := r.1 }
          outs := r.2.map .event
          action := .Continue }
      else { state := s, outs := [], action := .Continue }
  | .BtDevicePropertyChanged addr prop =>
      if s.btPresent then
        { state := s
          outs := (handle_device_property_change_sim s.adapterPresent
            env.view addr prop).map .event
          action := .Continue }
      else { state := s, outs := [], action := .Continue }
  | .BtPairingRequest req =>
      let r := handle_bt_pairing_request_sim s req
      { state := r.1, outs := [.event r.2], action := .Continue }
  | .IwdDeviceAdded p =>
      { state := s, outs := [.call (.iwdDeviceAddedReenumerate p)],
        action := .Continue }
  | .IwdDeviceRemoved p =>
      { state := s, outs := [.call (.iwdDeviceRemovedReconcile p)],
        action := .Continue }
  | .Command c => handle_command env s c
  | .CommandChannelClosed =>
      { state := s, outs := [], action := .Break }

/-- Repeated event handling (states threaded through, outputs dropped). -/
def runEvents (env : LoopEnv) (s : LoopState) : List LoopEvent → LoopState
  | [] => s
  | e :: es => runEvents env (handle_event env s e).state es

/-! ## UI-side Bluetooth operation flags — `src/backend/manager.rs`

`request_bt_connect` / `request_bt_disconnect` / `request_bt_pair`
(manager.rs lines 647-666) set one local flag on the addressed device;
`set_bt_connecting` (lines 709-717, reached from the `BtConnecting`
event) sets `connecting` to whether the device matches the event address;
the `BtDeviceChanged` handler (lines 358-367) clears
`connecting`/`disconnecting`; the `Error` handler (lines 372-379, via
`clear_bt_operations`) clears all three flags.  The model follows one
device whose address matches the requests. -/

/-- The local operation flags of one `BtDevice`. -/
structure BtLocalFlags where
  connecting : Bool
  disconnecting : Bool
  removing : Bool
deriving DecidableEq, Repr

/-- One step acting on the addressed device's flags: a UI request or a
backend event reaching the manager. `evConnecting matched` is the
`BtConnecting` event (`matched` = event address equals this device's). -/
inductive BtUiStep where
  | reqConnect
  | reqDisconnect
  | reqPair
  | reqRemove
  | evDeviceChanged
  | evError
  | evConnecting (matched : Bool)
deriving DecidableEq, Repr

/-- Flag effect of one step, straight from the manager handlers named
above (a `BtDeviceChanged` deliberately does not clear `removing`). -/
def applyBtUiStep (f : BtLocalFlags) : BtUiStep → BtLocalFlags
  | .reqConnect => { f with connecting := true }
  | .reqDisconnect => { f with disconnecting := true }
  | .reqPair => { f with connecting := true }
  | .reqRemove => { f with removing := true }
  | .evDeviceChanged => { f with connecting := false, disconnecting := false }
  | .evError => { connecting := false, disconnecting := false, removing := false }
  | .evConnecting matched => { f with connecting := matched }

/-- Fold a step sequence over the flags. -/
def runBtUi (f : BtLocalFlags) (l : List BtUiStep) : BtLocalFlags :=
  l.foldl applyBtUiStep f

/-- At most one of {connecting, disconnecting} is set. -/
def atMostOneOp (f : BtLocalFlags) : Bool :=
  !(f.connecting && f.disconnecting)

/-- The steps that are `BtConnect`/`BtDisconnect`/`BtPair` requests. -/
def isBtRequest : BtUiStep → Bool
  | .reqConnect => true
  | .reqDisconnect => true
  | .reqPair => true
  | _ => false

/-- Guard for the amended C8 claim: a request (or a positive
`BtConnecting` event) may only arrive while the opposite-direction flag is
clear — i.e. each operation is issued only after the previous one was
confirmed (`BtDeviceChanged`) or failed (`Error`). -/
def btStepAllowed (f : BtLocalFlags) : BtUiStep → Bool
  | .reqConnect => !f.disconnecting
  | .reqPair => !f.disconnecting
  | .reqDisconnect => !f.connecting
  | .evConnecting matched => !matched || !f.disconnecting
  | _ => true

/-- A step sequence every element of which respects `btStepAllowed` in the
state where it fires. -/
def btGuardedOk (f : BtLocalFlags) : List BtUiStep → Bool
  | [] => true
  | e :: es => btStepAllowed f e && btGuardedOk (applyBtUiStep f e) es

/-! ## Single-flight WiFi connect — `src/backend/wifi_backend.rs`

`WifiBackend::connect` (lines 236-300) runs on the event loop (commands
are handled one at a time, so two `connect` calls never interleave); its
two lock-held critical sections are modelled as atomic steps:
`takeAndSpawn` (lines 239-246 + the `tokio::spawn`) takes the stored
abort handle out of the `pending_connect` slot, aborts it if present, and
spawns the new task; `installHandle` (lines 297-299) stores the new
task's abort handle in the slot.  A spawned task that is not aborted may
resolve at any point (`taskResolve`), and its final lock-held block
(lines 292-294) clears the slot unconditionally; an aborted task never
runs that block.  Task identities are allocated from a counter so every
spawned task is distinct. -/

/-- The modelled state of the `pending_connect` machinery: the slot
contents, the id of a connect call between its two critical sections
(`phase`), the id counter, and the spawned / resolved / abort-called task
id lists (`aborted` records every `.abort()` call, one entry per call). -/
structure ConnState where
  slot : Option Nat
  phase : Option Nat
  nextId : Nat
  started : List Nat
  finished : List Nat
  aborted : List Nat
deriving DecidableEq, Repr

/-- Atomic steps of the connect machinery. -/
inductive ConnStep where
  | takeAndSpawn
  | installHandle
  | taskResolve (k : Nat)
deriving DecidableEq, Repr

/-- Step enabling: a new connect may only start once the previous connect
call returned (event-loop serialization ⇒ `phase = none`); the install is
the pending second half of a connect; only a spawned, unaborted,
unresolved task can resolve. -/
def connStepOk (s : ConnState) : ConnStep → Bool
  | .takeAndSpawn => s.phase.isNone
  | .installHandle => s.phase.isSome
  | .taskResolve k =>
      s.started.contains k && !(s.aborted.contains k) &&
        !(s.finished.contains k)

/-- Step effect.  `takeAndSpawn`: `guard.take()` + `prev.abort()` +
`tokio::spawn`; `installHandle`: `*guard = Some(handle)`;
`taskResolve k`: the task's final `*guard = None`. -/
def applyConnStep (s : ConnState) : ConnStep → ConnState
  | .takeAndSpawn =>
      { slot := none
        phase := some s.nextId
        nextId := s.nextId + 1
        started := s.nextId :: s.started
        finished := s.finished
        aborted :=
          match s.slot with
          | some t => t :: s.aborted
          | none => s.aborted }
  | .installHandle =>
      match s.phase with
      | some k => { s with slot := some k, phase := none }
      | none => s
  | .taskResolve k => { s with slot := none, finished := k :: s.finished }

/-- Fold a step list over the connect state. -/
def runConn (s : ConnState) : List ConnStep → ConnState
  | [] => s
  | e :: es => runConn (applyConnStep s e) es

/-- Validity of a step list from a state. -/
def connValid (s : ConnState) : List ConnStep → Bool
  | [] => true
  | e :: es => connStepOk s e && connValid (applyConnStep s e) es

/-- The initial connect state (`pending_connect: Mutex::new(None)`). -/
def connInit : ConnState :=
  { slot := none, phase := none, nextId := 0,
    started := [], finished := [], aborted := [] }

/-- Task `t` is in flight: spawned, not aborted, not resolved. -/
def liveTask (s : ConnState) (t : Nat) : Bool :=
  s.started.contains t && !(s.aborted.contains t) && !(s.finished.contains t)

/-- Invariant of the connect machinery: every `.abort()` call targets a
distinct handle (`aborted` has no duplicates), ids are bounded by the
counter, the slot and phase never hold an already-aborted id, the slot is
empty while a connect is between its critical sections, and every
in-flight task is reachable through the phase or the slot. -/
def ConnInv (s : ConnState) : Prop :=
  s.aborted.Nodup
  ∧ (∀ t ∈ s.aborted, t < s.nextId)
  ∧ (∀ t ∈ s.started, t < s.nextId)
  ∧ (∀ t ∈ s.finished, t < s.nextId)
  ∧ (∀ t, s.slot = some t → t < s.nextId ∧ t ∉ s.aborted)
  ∧ (∀ t, s.phase = some t → t < s.nextId ∧ t ∉ s.aborted)
  ∧ (∀ t, s.phase = some t → s.slot = none)
  ∧ (∀ t, liveTask s t = true → s.phase = some t ∨ s.slot = some t)

/-! ## Theorems for C6 and C7 -/

/-- C6: the canonical state functions `WifiNetwork::state` and
`BtDevice::state` are total and deterministic (they are functions), and for
every combination of boolean flags they return exactly the state picked by
the documented first-match priority orders. -/
theorem c6_state_priority_total :
    (∀ (a b c d e f : Bool),
      wifiNetworkState ⟨a, b, c, d, e, f⟩ = wifiStateSpecPriority ⟨a, b, c, d, e, f⟩)
    ∧ (∀ (a b c d e : Bool),
      btDeviceState ⟨a, b, c, d, e⟩ = btStateSpecPriority ⟨a, b, c, d, e⟩) := by
  constructor
  · intro a b c d e f
    cases a <;> cases b <;> cases c <;> cases d <;> cases e <;> cases f <;> rfl
  · intro a b c d e
    cases a <;> cases b <;> cases c <;> cases d <;> cases e <;> rfl

/-- C7: the rebuilt saved-networks store contains exactly the known entries
whose (name, type) pair is absent from the visible scan snapshot; any known
entry whose pair matches a visible entry is suppressed. -/
theorem c7_saved_networks_set_difference
    (networks : List WifiNetworkData) (known : List KnownNetworkData)
    (d : KnownNetworkData) :
    (d ∈ rebuild_saved_networks known (visiblePairs networks) ↔
      d ∈ known ∧ ∀ n ∈ networks,
        ¬(n.name = d.name ∧ n.network_type = d.network_type)) := by
  simp only [rebuild_saved_networks, List.mem_filter, Bool.not_eq_eq_eq_not,
    Bool.not_true, decide_eq_false_iff_not, visiblePairs, List.mem_map]
  constructor
  · rintro ⟨hk, hnv⟩
    refine ⟨hk, ?_⟩
    intro n hn ⟨h1, h2⟩
    exact hnv ⟨n, hn, by simp [h1, h2]⟩
  · rintro ⟨hk, hnone⟩
    refine ⟨hk, ?_⟩
    rintro ⟨n, hn, hpair⟩
    have h1 : n.name = d.name := by
      have := congrArg Prod.fst hpair; simpa using this
    have h2 : n.network_type = d.network_type := by
      have := congrArg Prod.snd hpair; simpa using this
    exact hnone n hn ⟨h1, h2⟩

/-! ## Theorems for C2 (auth-failure error mapping and state re-query) -/

/-- C2: a WiFi connect that fails with a daemon error containing
"AuthenticationFailed" (and matching none of the earlier patterns) emits
the error text exactly "Wrong password", and the `WifiConnected` event it
emits carries the daemon's re-queried connected network — in particular,
whenever a device path and Station interface exist, the payload is
literally the daemon's `connected_network()` answer, never an assumed
`None`. -/
theorem c2_auth_failure_events (path e : String) (device_path : Option String)
    (v : IwdStationView)
    (h1 : strContains e "AuthenticationFailed" = true)
    (h2 : strContains e "Aborted" = false)
    (h3 : strContains e "Canceled" = false)
    (h4 : strContains e "InvalidFormat" = false)
    (h5 : strContains e "InvalidArguments" = false) :
    connectTaskEvents path device_path v (.failure e) =
      [.WifiConnecting path,
       .WifiConnected (get_connected_network_static device_path v),
       .Error "Wrong password"]
    ∧ (∀ d, device_path = some d → v.hasStation = true →
        get_connected_network_static device_path v = v.connectedNetwork) := by
  have herr : format_iwd_error e = "Wrong password" := by
    simp [format_iwd_error, h1, h2, h3, h4, h5]
  refine ⟨by simp [connectTaskEvents, herr], ?_⟩
  intro d hd hs
  simp [get_connected_network_static, hd, hs]

/-- Witness for C2 at a concrete iwd error string and daemon state. -/
theorem c2_auth_failure_events_witness :
    strContains "net.connman.iwd.AuthenticationFailed: failed" "AuthenticationFailed" = true
    ∧ strContains "net.connman.iwd.AuthenticationFailed: failed" "Aborted" = false
    ∧ strContains "net.connman.iwd.AuthenticationFailed: failed" "Canceled" = false
    ∧ strContains "net.connman.iwd.AuthenticationFailed: failed" "InvalidFormat" = false
    ∧ strContains "net.connman.iwd.AuthenticationFailed: failed" "InvalidArguments" = false
    ∧ (connectTaskEvents "/net/x/1" (some "/dev/wlan0")
          ⟨true, some "/net/y/2"⟩
          (.failure "net.connman.iwd.AuthenticationFailed: failed") =
        [.WifiConnecting "/net/x/1",
         .WifiConnected (get_connected_network_static (some "/dev/wlan0")
            ⟨true, some "/net/y/2"⟩),
         .Error "Wrong password"]
      ∧ (∀ d, (some "/dev/wlan0" : Option String) = some d →
          (IwdStationView.mk true (some "/net/y/2")).hasStation = true →
          get_connected_network_static (some "/dev/wlan0")
            ⟨true, some "/net/y/2"⟩ = (IwdStationView.mk true (some "/net/y/2")).connectedNetwork)) :=
  ⟨by decide, by decide, by decide, by decide, by decide,
   c2_auth_failure_events "/net/x/1" "net.connman.iwd.AuthenticationFailed: failed"
     (some "/dev/wlan0") ⟨true, some "/net/y/2"⟩
     (by decide) (by decide) (by decide) (by decide) (by decide)⟩

/-! ## Theorems for C3 (station backoff totals) -/

/-- C3 counterexample: when the Station interface never appears, the total
time slept across all backoff delays is 4750 ms, which is not ≤ 1550 ms
(the "≤ ~1.55 s" figure of the claim): after the 800 ms cap is reached the
delay stays at 800 ms for the remaining attempts, so the sum is
50+100+200+400+800·5 = 4750, three times the claimed bound. -/
theorem c3_counterexample_total_backoff :
    (wait_for_station_proxy_sim (fun _ => false) 10).2.sum = 4750
    ∧ ¬((wait_for_station_proxy_sim (fun _ => false) 10).2.sum ≤ 1550) := by
  decide

/-- Sleeps of any run are bounded by the sleeps of the run in which the
station never appears (helper for the amended C3). -/
theorem waitAttemptsSumLe (found : Nat → Bool) :
    ∀ (remaining attempt : Nat),
      (waitAttempts found attempt remaining).2.sum ≤
        (waitAttempts (fun _ => false) attempt remaining).2.sum := by
  intro remaining
  induction remaining with
  | zero => intro attempt; simp [waitAttempts]
  | succ n ih =>
    intro attempt
    simp only [waitAttempts]
    by_cases h : found attempt
    · simp [h]
    · simp only [h, if_false, Bool.false_eq_true]
      by_cases h0 : n = 0
      · simp [h0]
      · simp only [h0, if_false, List.sum_cons]
        exact Nat.add_le_add_left (ih (attempt + 1)) _

/-- C3 amended: after a powered-true transition the station interface is
polled with exponential backoff starting at 50 ms and doubling up to a cap
of 800 ms for at most 10 attempts before station streams are subscribed;
when the interface never appears the sleeps are exactly
[50, 100, 200, 400, 800, 800, 800, 800, 800] (no sleep after the final
attempt), totalling 4750 ms, and for every availability pattern the total
sleep is at most 4750 ms (≈ 4.75 s), not ≈ 1.55 s. -/
theorem c3_amended_backoff_total :
    (setup_station_streams_with_retry_sim (fun _ => false)).2 =
      [50, 100, 200, 400, 800, 800, 800, 800, 800]
    ∧ (setup_station_streams_with_retry_sim (fun _ => false)).2.sum = 4750
    ∧ (setup_station_streams_with_retry_sim (fun _ => false)).1 = none
    ∧ backoffDelay 0 = 50
    ∧ (∀ n, backoffDelay (n + 1) = min (2 * backoffDelay n) 800)
    ∧ (∀ found : Nat → Bool,
        (setup_station_streams_with_retry_sim found).2.sum ≤ 4750) := by
  refine ⟨by decide, by decide, by decide, by decide, ?_, ?_⟩
  · intro n
    rcases Nat.lt_or_ge n 4 with h | h
    · interval_cases n <;> decide
    · have h4 : min n 4 = 4 := Nat.min_eq_right h
      have h5 : min (n + 1) 4 = 4 := Nat.min_eq_right (by omega)
      norm_num [backoffDelay, h4, h5]
  · intro found
    have h := waitAttemptsSumLe found 10 0
    have h2 : (waitAttempts (fun _ => false) 0 10).2.sum = 4750 := by decide
    calc (setup_station_streams_with_retry_sim found).2.sum
        = (waitAttempts found 0 10).2.sum := rfl
      _ ≤ (waitAttempts (fun _ => false) 0 10).2.sum := h
      _ = 4750 := h2

/-! ## Theorems for C5 (DeviceRemoved for a still-paired device) -/

/-- C5 counterexample: the claim's re-tracking conjunct is not
unconditional.  At a `DeviceRemoved` whose address the daemon still
reports as paired (`devOk = true`, `paired = true`) but whose per-device
`device.events()` re-subscription fails (`eventsOk = false`),
`handle_adapter_event` still emits the single `BtDeviceChanged` — but
`start_tracking_device` only logs the failure, so the address is NOT
re-inserted into the tracked-device set, contradicting the claim's
"the address is re-inserted" at this input. -/
theorem c5_counterexample_subscription_failure :
    ((fun _ => (⟨true, true, "Keyboard", "Keyboard", "input-keyboard",
        true, false, -1, -32768, false⟩ : BtDevView)) "AA:BB:CC:DD:EE:FF").devOk = true
    ∧ ((fun _ => (⟨true, true, "Keyboard", "Keyboard", "input-keyboard",
        true, false, -1, -32768, false⟩ : BtDevView)) "AA:BB:CC:DD:EE:FF").paired = true
    ∧ (handle_adapter_event true
        (fun _ => ⟨true, true, "Keyboard", "Keyboard", "input-keyboard",
          true, false, -1, -32768, false⟩)
        (.DeviceRemoved "AA:BB:CC:DD:EE:FF") ["AA:BB:CC:DD:EE:FF"]).2 =
      [.BtDeviceChanged (btDataOf "AA:BB:CC:DD:EE:FF"
        ⟨true, true, "Keyboard", "Keyboard", "input-keyboard",
          true, false, -1, -32768, false⟩)]
    ∧ "AA:BB:CC:DD:EE:FF" ∉
        (handle_adapter_event true
          (fun _ => ⟨true, true, "Keyboard", "Keyboard", "input-keyboard",
            true, false, -1, -32768, false⟩)
          (.DeviceRemoved "AA:BB:CC:DD:EE:FF") ["AA:BB:CC:DD:EE:FF"]).1 := by
  refine ⟨rfl, rfl, by decide, by decide⟩

/-- C5 amended: for a `DeviceRemoved` adapter event whose address the
daemon still reports as paired, no `BtDeviceRemoved` event is ever
emitted; exactly one `BtDeviceChanged` is emitted and its payload has
`paired = true`; and the address is re-inserted into the tracked-device
set provided the per-device event re-subscription (`device.events()`)
succeeds — on subscription failure the source only logs a warning and the
address stays untracked. -/
theorem c5_amended_removed_still_paired (addr : String)
    (view : String → BtDevView) (tracked : List String)
    (hdev : (view addr).devOk = true)
    (hpaired : (view addr).paired = true) :
    (handle_adapter_event true view (.DeviceRemoved addr) tracked).2 =
      [.BtDeviceChanged (btDataOf addr (view addr))]
    ∧ (btDataOf addr (view addr)).paired = true
    ∧ (∀ a, BackendEvent.BtDeviceRemoved a ∉
        (handle_adapter_event true view (.DeviceRemoved addr) tracked).2)
    ∧ ((view addr).eventsOk = true →
        addr ∈ (handle_adapter_event true view (.DeviceRemoved addr) tracked).1) := by
  have hmain : handle_adapter_event true view (.DeviceRemoved addr) tracked =
      (start_tracking_device addr (view addr) (tracked.erase addr),
       [.BtDeviceChanged (btDataOf addr (view addr))]) := by
    simp [handle_adapter_event, read_device_data, hdev, hpaired]
  refine ⟨by rw [hmain], by simp [btDataOf, hpaired], ?_, ?_⟩
  · intro a
    rw [hmain]
    simp
  · intro hev
    rw [hmain]
    simp only [start_tracking_device, hev, if_true]
    by_cases hc : (tracked.erase addr).contains addr
    · simp only [hc, if_true]
      simpa [List.contains] using hc
    · by_cases hm : addr ∈ tracked.erase addr
      · simp [hm]
      · simp [hm]

/-- Witness for the amended C5 at a concrete address, daemon view (with a
succeeding re-subscription) and tracked set. -/
theorem c5_amended_removed_still_paired_witness :
    ((fun _ => (⟨true, true, "Keyboard", "Keyboard", "input-keyboard",
        true, false, -1, -32768, true⟩ : BtDevView)) "AA:BB:CC:DD:EE:FF").devOk = true
    ∧ ((fun _ => (⟨true, true, "Keyboard", "Keyboard", "input-keyboard",
        true, false, -1, -32768, true⟩ : BtDevView)) "AA:BB:CC:DD:EE:FF").paired = true
    ∧ ((handle_adapter_event true
          (fun _ => ⟨true, true, "Keyboard", "Keyboard", "input-keyboard",
            true, false, -1, -32768, true⟩)
          (.DeviceRemoved "AA:BB:CC:DD:EE:FF") ["AA:BB:CC:DD:EE:FF"]).2 =
        [.BtDeviceChanged (btDataOf "AA:BB:CC:DD:EE:FF"
          ((fun _ => ⟨true, true, "Keyboard", "Keyboard", "input-keyboard",
            true, false, -1, -32768, true⟩) "AA:BB:CC:DD:EE:FF"))]
      ∧ (btDataOf "AA:BB:CC:DD:EE:FF"
          ((fun _ => (⟨true, true, "Keyboard", "Keyboard", "input-keyboard",
            true, false, -1, -32768, true⟩ : BtDevView)) "AA:BB:CC:DD:EE:FF")).paired = true
      ∧ (∀ a, BackendEvent.BtDeviceRemoved a ∉
          (handle_adapter_event true
            (fun _ => ⟨true, true, "Keyboard", "Keyboard", "input-keyboard",
              true, false, -1, -32768, true⟩)
            (.DeviceRemoved "AA:BB:CC:DD:EE:FF") ["AA:BB:CC:DD:EE:FF"]).2)
      ∧ (((fun _ => (⟨true, true, "Keyboard", "Keyboard", "input-keyboard",
            true, false, -1, -32768, true⟩ : BtDevView)) "AA:BB:CC:DD:EE:FF").eventsOk = true →
          "AA:BB:CC:DD:EE:FF" ∈
            (handle_adapter_event true
              (fun _ => ⟨true, true, "Keyboard", "Keyboard", "input-keyboard",
                true, false, -1, -32768, true⟩)
              (.DeviceRemoved "AA:BB:CC:DD:EE:FF") ["AA:BB:CC:DD:EE:FF"]).1)) :=
  ⟨by decide, by decide,
   c5_amended_removed_still_paired "AA:BB:CC:DD:EE:FF"
     (fun _ => ⟨true, true, "Keyboard", "Keyboard", "input-keyboard",
       true, false, -1, -32768, true⟩)
     ["AA:BB:CC:DD:EE:FF"] (by decide) (by decide)⟩

/-! ## Theorems for C8 (at most one of connecting/disconnecting) -/

/-- C8 counterexample: the claim as stated is false — the request handlers
only set their own flag and never clear the opposite one, so the request
sequence `BtConnect; BtDisconnect` (with no intervening confirming event)
leaves both `connecting` and `disconnecting` true at the same instant. -/
theorem c8_counterexample_both_flags :
    ¬(∀ l : List BtUiStep, (∀ e ∈ l, isBtRequest e = true) →
        atMostOneOp (runBtUi ⟨false, false, false⟩ l) = true)
    ∧ (runBtUi ⟨false, false, false⟩ [.reqConnect, .reqDisconnect]).connecting = true
    ∧ (runBtUi ⟨false, false, false⟩ [.reqConnect, .reqDisconnect]).disconnecting = true := by
  refine ⟨?_, by decide, by decide⟩
  intro h
  have h2 := h [.reqConnect, .reqDisconnect] (by decide)
  exact absurd h2 (by decide)

/-- One guarded step preserves the mutual exclusion of the two flags
(helper for the amended C8). -/
theorem btStepPreservesAtMostOne (f : BtLocalFlags) (e : BtUiStep)
    (hf : atMostOneOp f = true) (ha : btStepAllowed f e = true) :
    atMostOneOp (applyBtUiStep f e) = true := by
  rcases f with ⟨c, d, r⟩
  cases e with
  | evConnecting m =>
      cases m <;> cases c <;> cases d <;> cases r <;>
        simp_all [applyBtUiStep, atMostOneOp, btStepAllowed]
  | _ =>
      cases c <;> cases d <;> cases r <;>
        simp_all [applyBtUiStep, atMostOneOp, btStepAllowed]

/-- C8 amended: at most one of {connecting, disconnecting} is true at any
instant, provided each request (and each positive `BtConnecting` event) is
issued only while the opposite-direction flag is clear — i.e. after the
previous operation was confirmed by `BtDeviceChanged` or failed with
`Error`, both of which clear the flags.  Without that separation the
counterexample applies: `BtConnect` immediately followed by `BtDisconnect`
sets both flags (the derived state then resolves to `Disconnecting`). -/
theorem c8_amended_guarded_exclusion (f : BtLocalFlags) (l : List BtUiStep)
    (hf : atMostOneOp f = true) (hg : btGuardedOk f l = true) :
    atMostOneOp (runBtUi f l) = true := by
  induction l generalizing f with
  | nil => simpa [runBtUi] using hf
  | cons e es ih =>
      simp only [btGuardedOk, Bool.and_eq_true] at hg
      exact ih (applyBtUiStep f e)
        (btStepPreservesAtMostOne f e hf hg.1) hg.2

/-- Witness for the amended C8 on a separated request sequence. -/
theorem c8_amended_guarded_exclusion_witness :
    atMostOneOp ⟨false, false, false⟩ = true
    ∧ btGuardedOk ⟨false, false, false⟩
        [.reqConnect, .evDeviceChanged, .reqDisconnect] = true
    ∧ atMostOneOp (runBtUi ⟨false, false, false⟩
        [.reqConnect, .evDeviceChanged, .reqDisconnect]) = true :=
  ⟨by decide, by decide,
   c8_amended_guarded_exclusion ⟨false, false, false⟩
     [.reqConnect, .evDeviceChanged, .reqDisconnect] (by decide) (by decide)⟩

/-! ## Theorems for C9 (no error terminates the loop) -/

/-- C9: `handle_event` returns `Break` exactly for the `Shutdown` command
and for `CommandChannelClosed`; every other loop event — daemon property
changes, adapter events, pairing requests, timer fires and all other
commands, whatever the daemon answers in `env` — returns `Continue`. -/
theorem c9_break_only_on_shutdown (env : LoopEnv) (s : LoopState)
    (e : LoopEvent) :
    (handle_event env s e).action = .Break ↔
      (e = .Command .Shutdown ∨ e = .CommandChannelClosed) := by
  cases e with
  | Command c =>
      cases c <;>
        simp only [handle_event, handle_command] <;>
        (repeat' split) <;> simp
  | _ =>
      simp only [handle_event, handle_command] <;>
        (repeat' split) <;> simp

/-! ## Theorems for C10 (pending-response slot discipline) -/

/-- C10: for each response command (`PassphraseResponse`,
`BtPairingResponse`, `BtPairingPinResponse`, `BtPairingPasskeyResponse`):
if the corresponding pending slot is empty the command is a no-op (state
unchanged, nothing sent); handling always leaves the slot empty; and a
second response following directly produces no output, so each pending
request receives at most one reply. -/
theorem c10_response_slot_discipline (env : LoopEnv) (s : LoopState)
    (p p2 : Option String) (accept accept2 : Bool)
    (pin pin2 : Option String) (k k2 : Option Nat) :
    ((s.pendingPassphrase = false →
        handle_command env s (.PassphraseResponse p) = ⟨s, [], .Continue⟩)
      ∧ (handle_command env s (.PassphraseResponse p)).state.pendingPassphrase = false
      ∧ (handle_command env (handle_command env s (.PassphraseResponse p)).state
          (.PassphraseResponse p2)).outs = [])
    ∧ ((s.pendingPairing = false →
        handle_command env s (.BtPairingResponse accept) = ⟨s, [], .Continue⟩)
      ∧ (handle_command env s (.BtPairingResponse accept)).state.pendingPairing = false
      ∧ (handle_command env (handle_command env s (.BtPairingResponse accept)).state
          (.BtPairingResponse accept2)).outs = [])
    ∧ ((s.pendingPin = false →
        handle_command env s (.BtPairingPinResponse pin) = ⟨s, [], .Continue⟩)
      ∧ (handle_command env s (.BtPairingPinResponse pin)).state.pendingPin = false
      ∧ (handle_command env (handle_command env s (.BtPairingPinResponse pin)).state
          (.BtPairingPinResponse pin2)).outs = [])
    ∧ ((s.pendingPasskey = false →
        handle_command env s (.BtPairingPasskeyResponse k) = ⟨s, [], .Continue⟩)
      ∧ (handle_command env s (.BtPairingPasskeyResponse k)).state.pendingPasskey = false
      ∧ (handle_command env (handle_command env s (.BtPairingPasskeyResponse k)).state
          (.BtPairingPasskeyResponse k2)).outs = []) := by
  obtain ⟨w1, w2, w3, w4, w5, dl, ae, dp, ss, st, tr, pp, pr, pi, pk⟩ := s
  refine ⟨⟨?_, ?_, ?_⟩, ⟨?_, ?_, ?_⟩, ⟨?_, ?_, ?_⟩, ⟨?_, ?_, ?_⟩⟩ <;>
    first
      | (intro h; simp_all [handle_command])
      | simp [handle_command]

/-- Witness for C10 at a concrete state with all slots empty. -/
theorem c10_response_slot_discipline_witness :
    (LoopState.mk false false false false false none false false false false
        [] false false false false).pendingPassphrase = false
    ∧ ((handle_command
        ⟨0, true, "e", true, true, true, true, true, "e", none, true, "e",
          none, none, none, fun _ => ⟨true, false, "", "", "", false, false,
            -1, -32768, true⟩, []⟩
        (LoopState.mk false false false false false none false false false false
          [] false false false false)
        (.PassphraseResponse none) =
          ⟨LoopState.mk false false false false false none false false false false
            [] false false false false, [], .Continue⟩)
      ∧ ((handle_command
          ⟨0, true, "e", true, true, true, true, true, "e", none, true, "e",
            none, none, none, fun _ => ⟨true, false, "", "", "", false, false,
              -1, -32768, true⟩, []⟩
          (LoopState.mk false false false false false none false false false false
            [] false false false false)
          (.PassphraseResponse none)).state.pendingPassphrase = false)) :=
  ⟨rfl,
   ⟨(c10_response_slot_discipline
      ⟨0, true, "e", true, true, true, true, true, "e", none, true, "e",
        none, none, none, fun _ => ⟨true, false, "", "", "", false, false,
          -1, -32768, true⟩, []⟩
      (LoopState.mk false false false false false none false false false false
        [] false false false false)
      none none false false none none none none).1.1 rfl,
    (c10_response_slot_discipline
      ⟨0, true, "e", true, true, true, true, true, "e", none, true, "e",
        none, none, none, fun _ => ⟨true, false, "", "", "", false, false,
          -1, -32768, true⟩, []⟩
      (LoopState.mk false false false false false none false false false false
        [] false false false false)
      none none false false none none none none).1.2.1⟩⟩

/-! ## Theorems for C4 (BT scan deadline lifecycle) -/

/-- No loop event other than a `BtScan` command can set the scan deadline
(helper for C4). -/
theorem deadlineNoneStep (env : LoopEnv) (s : LoopState) (e : LoopEvent)
    (h : s.deadline = none) (he : e ≠ .Command .BtScan) :
    (handle_event env s e).state.deadline = none := by
  cases e with
  | Command c =>
      cases c with
      | BtScan => exact absurd rfl he
      | _ =>
          simp only [handle_event, handle_command] <;>
            (repeat' split) <;> simp_all
  | BtPairingRequest r =>
      cases r <;> simp [handle_event, handle_bt_pairing_request_sim, h]
  | _ =>
      simp only [handle_event, handle_command] <;>
        (repeat' split) <;> simp_all

/-- A cleared deadline stays cleared along any event sequence containing
no `BtScan` command (helper for C4). -/
theorem runDeadlineNone (env : LoopEnv) :
    ∀ (evs : List LoopEvent) (s : LoopState),
      s.deadline = none → (∀ e ∈ evs, e ≠ .Command .BtScan) →
      (runEvents env s evs).deadline = none := by
  intro evs
  induction evs with
  | nil => intro s h _; simpa [runEvents] using h
  | cons e es ih =>
      intro s h hall
      simp only [runEvents]
      exact ih _ (deadlineNoneStep env s e h (hall e (by simp)))
        (fun e' he' => hall e' (by simp [he']))

/-- C4: from a state with no discovery running, a `BtScan` that starts
discovery arms the 30-second deadline; if the timeout then fires, the
discovery stream is dropped, the deadline is cleared and exactly one
`BtDiscovering(false)` event is emitted; a `BtStopScan` instead clears the
deadline, and after it the deadline stays cleared along any event sequence
without a new `BtScan`, so the timeout branch (which requires an armed
deadline) can never fire for that scan. -/
theorem c4_bt_scan_deadline_lifecycle (env env2 : LoopEnv) (s : LoopState)
    (evs : List LoopEvent)
    (h1 : s.discovery = false) (h2 : s.btPresent = true)
    (h3 : s.adapterPresent = true) (h4 : env.scanStartOk = true) :
    (handle_command env s .BtScan).state.discovery = true
    ∧ (handle_command env s .BtScan).state.deadline = some (env.now + 30)
    ∧ (handle_event env2 (handle_command env s .BtScan).state
        .BtScanTimeout).state.discovery = false
    ∧ (handle_event env2 (handle_command env s .BtScan).state
        .BtScanTimeout).state.deadline = none
    ∧ (handle_event env2 (handle_command env s .BtScan).state
        .BtScanTimeout).outs = [.event (.BtDiscovering false)]
    ∧ (handle_command env2 (handle_command env s .BtScan).state
        .BtStopScan).state.deadline = none
    ∧ ((∀ e' ∈ evs, e' ≠ .Command .BtScan) →
        (runEvents env2 (handle_command env2 (handle_command env s .BtScan).state
          .BtStopScan).state evs).deadline = none) := by
  have hs1 : handle_command env s .BtScan =
      ⟨{ s with discovery := true, deadline := some (env.now + 30) },
       [.event (.BtDiscovering true)], .Continue⟩ := by
    simp [handle_command, h1, h2, h3, h4, start_scan_sim]
  rw [hs1]
  refine ⟨rfl, rfl, ?_, ?_, ?_, ?_, ?_⟩
  · simp [handle_event]
  · simp [handle_event]
  · simp [handle_event, h2]
  · simp [handle_command]
  · intro hall
    apply runDeadlineNone
    · simp [handle_command]
    · exact hall

/-- Witness for C4 at a concrete environment, state and tail trace. -/
theorem c4_bt_scan_deadline_lifecycle_witness :
    (LoopState.mk false false true true false none false false false false
        [] false false false false).discovery = false
    ∧ (LoopState.mk false false true true false none false false false false
        [] false false false false).btPresent = true
    ∧ (LoopState.mk false false true true false none false false false false
        [] false false false false).adapterPresent = true
    ∧ (LoopEnv.mk 0 true "e" true true true true true "e" none true "e"
        none none none (fun _ => ⟨true, false, "", "", "", false, false,
          -1, -32768, true⟩) []).scanStartOk = true
    ∧ (handle_command
        (LoopEnv.mk 0 true "e" true true true true true "e" none true "e"
          none none none (fun _ => ⟨true, false, "", "", "", false, false,
            -1, -32768, true⟩) [])
        (LoopState.mk false false true true false none false false false false
          [] false false false false) .BtScan).state.discovery = true
    ∧ (handle_command
        (LoopEnv.mk 0 true "e" true true true true true "e" none true "e"
          none none none (fun _ => ⟨true, false, "", "", "", false, false,
            -1, -32768, true⟩) [])
        (LoopState.mk false false true true false none false false false false
          [] false false false false) .BtScan).state.deadline = some 30 :=
  ⟨rfl, rfl, rfl, rfl,
   (c4_bt_scan_deadline_lifecycle
     (LoopEnv.mk 0 true "e" true true true true true "e" none true "e"
       none none none (fun _ => ⟨true, false, "", "", "", false, false,
         -1, -32768, true⟩) [])
     (LoopEnv.mk 0 true "e" true true true true true "e" none true "e"
       none none none (fun _ => ⟨true, false, "", "", "", false, false,
         -1, -32768, true⟩) [])
     (LoopState.mk false false true true false none false false false false
       [] false false false false)
     [.BtScanTimeout] rfl rfl rfl rfl).1,
   (c4_bt_scan_deadline_lifecycle
     (LoopEnv.mk 0 true "e" true true true true true "e" none true "e"
       none none none (fun _ => ⟨true, false, "", "", "", false, false,
         -1, -32768, true⟩) [])
     (LoopEnv.mk 0 true "e" true true true true true "e" none true "e"
       none none none (fun _ => ⟨true, false, "", "", "", false, false,
         -1, -32768, true⟩) [])
     (LoopState.mk false false true true false none false false false false
       [] false false false false)
     [.BtScanTimeout] rfl rfl rfl rfl).2.1⟩

/-! ## Theorems for C1 (single-flight connect cancellation) -/

/-- Boolean/propositional reading of `liveTask` (helper for C1). -/
theorem liveTaskIff (s : ConnState) (t : Nat) :
    liveTask s t = true ↔
      (t ∈ s.started ∧ t ∉ s.aborted ∧ t ∉ s.finished) := by
  simp [liveTask, List.contains, and_assoc]

/-- `runConn` distributes over append (helper for C1). -/
theorem runConnAppend (l1 l2 : List ConnStep) :
    ∀ s : ConnState, runConn s (l1 ++ l2) = runConn (runConn s l1) l2 := by
  induction l1 with
  | nil => intro s; rfl
  | cons e es ih => intro s; simpa [runConn] using ih (applyConnStep s e)

/-- `connValid` distributes over append (helper for C1). -/
theorem connValidAppend (l1 l2 : List ConnStep) :
    ∀ s : ConnState,
      connValid s (l1 ++ l2) =
        (connValid s l1 && connValid (runConn s l1) l2) := by
  induction l1 with
  | nil => intro s; simp [connValid, runConn]
  | cons e es ih =>
      intro s
      simp [connValid, runConn, ih (applyConnStep s e), Bool.and_assoc]

/-- The abort log only grows (helper for C1). -/
theorem abortedMono (l : List ConnStep) :
    ∀ (s : ConnState) (t : Nat), t ∈ s.aborted → t ∈ (runConn s l).aborted := by
  induction l with
  | nil => intro s t h; simpa [runConn] using h
  | cons e es ih =>
      intro s t h
      simp only [runConn]
      apply ih
      cases e with
      | takeAndSpawn =>
          cases hs : s.slot <;> simp [applyConnStep, hs, h]
      | installHandle =>
          cases hp : s.phase <;> simp [applyConnStep, hp, h]
      | taskResolve k => simpa [applyConnStep] using h

/-- One enabled step preserves `ConnInv` (helper for C1). -/
theorem connInvStep (s : ConnState) (e : ConnStep)
    (hInv : ConnInv s) (hOk : connStepOk s e = true) :
    ConnInv (applyConnStep s e) := by
  obtain ⟨hnd, hab, hst, hfin, hslot, hphase, hps, hlive⟩ := hInv
  cases e with
  | takeAndSpawn =>
      have hpn : s.phase = none := by
        simpa [connStepOk, Option.isNone_iff_eq_none] using hOk
      cases hs : s.slot with
      | none =>
          refine ⟨?_, ?_, ?_, ?_, ?_, ?_, ?_, ?_⟩ <;>
            simp only [applyConnStep, hs]
          · exact hnd
          · intro t ht; exact Nat.lt_succ_of_lt (hab t ht)
          · intro t ht
            rcases List.mem_cons.mp ht with h | h
            · omega
            · exact Nat.lt_succ_of_lt (hst t h)
          · intro t ht; exact Nat.lt_succ_of_lt (hfin t ht)
          · intro t ht; cases ht
          · intro t ht
            have : t = s.nextId := by
              simpa using ht.symm
            subst this
            exact ⟨Nat.lt_succ_self _, fun hm => absurd (hab _ hm) (lt_irrefl _)⟩
          · intro t _; trivial
          · intro t hlt
            rw [liveTaskIff] at hlt
            obtain ⟨hmem, hnab, hnfin⟩ := hlt
            simp only at hmem hnab hnfin
            rcases List.mem_cons.mp hmem with h | h
            · left; simpa [h]
            · exfalso
              have hl : liveTask s t = true := by
                rw [liveTaskIff]; exact ⟨h, hnab, hnfin⟩
              rcases hlive t hl with hc | hc
              · rw [hpn] at hc; cases hc
              · rw [hs] at hc; cases hc
      | some u =>
          have hu := hslot u hs
          refine ⟨?_, ?_, ?_, ?_, ?_, ?_, ?_, ?_⟩ <;>
            simp only [applyConnStep, hs]
          · exact List.nodup_cons.mpr ⟨hu.2, hnd⟩
          · intro t ht
            rcases List.mem_cons.mp ht with h | h
            · subst h; exact Nat.lt_succ_of_lt hu.1
            · exact Nat.lt_succ_of_lt (hab t h)
          · intro t ht
            rcases List.mem_cons.mp ht with h | h
            · omega
            · exact Nat.lt_succ_of_lt (hst t h)
          · intro t ht; exact Nat.lt_succ_of_lt (hfin t ht)
          · intro t ht; cases ht
          · intro t ht
            have : t = s.nextId := by
              simpa using ht.symm
            subst this
            refine ⟨Nat.lt_succ_self _, ?_⟩
            intro hm
            rcases List.mem_cons.mp hm with h | h
            · exact absurd h (by omega)
            · exact absurd (hab _ h) (lt_irrefl _)
          · intro t _; trivial
          · intro t hlt
            rw [liveTaskIff] at hlt
            obtain ⟨hmem, hnab, hnfin⟩ := hlt
            simp only at hmem hnab hnfin
            rcases List.mem_cons.mp hmem with h | h
            · left; simpa [h]
            · exfalso
              have htu : t ≠ u := fun habs => hnab (habs ▸ List.mem_cons_self _ _)
              have hl : liveTask s t = true := by
                rw [liveTaskIff]
                exact ⟨h, fun hm => hnab (List.mem_cons_of_mem _ hm), hnfin⟩
              rcases hlive t hl with hc | hc
              · rw [hpn] at hc; cases hc
              · rw [hs] at hc
                exact htu (Option.some.inj hc).symm
  | installHandle =>
      have hks : s.phase.isSome = true := by simpa [connStepOk] using hOk
      obtain ⟨k, hk⟩ := Option.isSome_iff_exists.mp hks
      have hkk := hphase k hk
      refine ⟨?_, ?_, ?_, ?_, ?_, ?_, ?_, ?_⟩ <;>
        simp only [applyConnStep, hk]
      · exact hnd
      · exact hab
      · exact hst
      · exact hfin
      · intro t ht
        have : t = k := by simpa using ht.symm
        subst this; exact hkk
      · intro t ht; cases ht
      · intro t ht; cases ht
      · intro t hlt
        have hl : liveTask s t = true := by
          rw [liveTaskIff] at hlt ⊢
          simpa using hlt
        rcases hlive t hl with hc | hc
        · right
          have : t = k := by rw [hk] at hc; exact (Option.some.inj hc).symm
          simpa [this]
        · exfalso
          have := hps k hk
          rw [this] at hc; cases hc
  | taskResolve k =>
      have hkl : liveTask s k = true := hOk
      rw [liveTaskIff] at hkl
      obtain ⟨hkmem, hknab, hknfin⟩ := hkl
      refine ⟨?_, ?_, ?_, ?_, ?_, ?_, ?_, ?_⟩ <;>
        simp only [applyConnStep]
      · exact hnd
      · exact hab
      · exact hst
      · intro t ht
        rcases List.mem_cons.mp ht with h | h
        · subst h; exact hst _ hkmem
        · exact hfin t h
      · intro t ht; cases ht
      · exact hphase
      · intro t _; trivial
      · intro t hlt
        rw [liveTaskIff] at hlt
        obtain ⟨hmem, hnab, hnfin⟩ := hlt
        simp only at hmem hnab hnfin
        have htk : t ≠ k := fun habs => hnfin (habs ▸ List.mem_cons_self _ _)
        have hl : liveTask s t = true := by
          rw [liveTaskIff]
          exact ⟨hmem, hnab, fun hm => hnfin (List.mem_cons_of_mem _ hm)⟩
      -- if t is reachable through the phase we are done; the slot case is
      -- impossible because k itself must then be reachable through the
      -- phase, which forces the slot to be empty
        rcases hlive t hl with hc | hc
        · left; exact hc
        · exfalso
          have hklive : liveTask s k = true := by
            rw [liveTaskIff]; exact ⟨hkmem, hknab, hknfin⟩
          rcases hlive k hklive with hck | hck
          · have := hps k hck
            rw [this] at hc; cases hc
          · rw [hck] at hc
            exact htk (Option.some.inj hc).symm
  
/-- `ConnInv` holds at the initial state (helper for C1). -/
theorem connInvInit : ConnInv connInit := by
  refine ⟨List.nodup_nil, ?_, ?_, ?_, ?_, ?_, ?_, ?_⟩ <;>
    simp [connInit, liveTask]

/-- `ConnInv` is preserved along any valid trace (helper for C1). -/
theorem connInvRun (l : List ConnStep) :
    ∀ s : ConnState, ConnInv s → connValid s l = true →
      ConnInv (runConn s l) := by
  induction l with
  | nil => intro s h _; simpa [runConn] using h
  | cons e es ih =>
      intro s h hv
      simp only [connValid, Bool.and_eq_true] at hv
      exact ih (applyConnStep s e) (connInvStep s e h hv.1) hv.2

/-- C1: along any valid interleaving in which a new connect request is
issued (`takeAndSpawn` after `pre`) while task `t` is still in flight,
that step finds `t`'s abort handle in the `pending_connect` slot, empties
the slot and aborts `t`; over the whole run `t` is aborted exactly once,
and no task is ever aborted more than once (every abort call targets a
distinct handle, and the slot — being an `Option` mutated only under the
lock-held critical sections — holds at most one pending handle, which the
take-and-cancel step always removes before the new handle is installed). -/
theorem c1_single_flight_cancel (pre post : List ConnStep) (t : Nat)
    (hv : connValid connInit (pre ++ ConnStep.takeAndSpawn :: post) = true)
    (hlive : liveTask (runConn connInit pre) t = true) :
    (runConn connInit (pre ++ [ConnStep.takeAndSpawn])).slot = none
    ∧ t ∈ (runConn connInit (pre ++ [ConnStep.takeAndSpawn])).aborted
    ∧ (runConn connInit (pre ++ ConnStep.takeAndSpawn :: post)).aborted.count t = 1
    ∧ (∀ u,
        (runConn connInit (pre ++ ConnStep.takeAndSpawn :: post)).aborted.count u ≤ 1) := by
  have hsplit : connValid connInit pre = true ∧
      connStepOk (runConn connInit pre) .takeAndSpawn = true ∧
      connValid (applyConnStep (runConn connInit pre) .takeAndSpawn) post = true := by
    have h := connValidAppend pre (ConnStep.takeAndSpawn :: post) connInit
    rw [hv] at h
    have h2 := h.symm
    simp only [connValid, Bool.and_eq_true] at h2
    exact ⟨h2.1, h2.2.1, h2.2.2⟩
  obtain ⟨hvpre, hok, hvpost⟩ := hsplit
  have hInv1 : ConnInv (runConn connInit pre) :=
    connInvRun pre connInit connInvInit hvpre
  have hpn : (runConn connInit pre).phase = none := by
    simpa [connStepOk, Option.isNone_iff_eq_none] using hok
  have hslot : (runConn connInit pre).slot = some t := by
    rcases hInv1.2.2.2.2.2.2.2 t hlive with hc | hc
    · rw [hpn] at hc; cases hc
    · exact hc
  have hstep : runConn connInit (pre ++ [ConnStep.takeAndSpawn]) =
      applyConnStep (runConn connInit pre) .takeAndSpawn := by
    rw [runConnAppend]; rfl
  have habmem : t ∈ (applyConnStep (runConn connInit pre) .takeAndSpawn).aborted := by
    simp [applyConnStep, hslot]
  have hfullrun : runConn connInit (pre ++ ConnStep.takeAndSpawn :: post) =
      runConn (applyConnStep (runConn connInit pre) .takeAndSpawn) post := by
    rw [runConnAppend]; rfl
  have hInv2 : ConnInv (applyConnStep (runConn connInit pre) .takeAndSpawn) :=
    connInvStep _ _ hInv1 hok
  have hInvF : ConnInv (runConn connInit (pre ++ ConnStep.takeAndSpawn :: post)) := by
    rw [hfullrun]; exact connInvRun post _ hInv2 hvpost
  have hmemF : t ∈ (runConn connInit (pre ++ ConnStep.takeAndSpawn :: post)).aborted := by
    rw [hfullrun]; exact abortedMono post _ t habmem
  refine ⟨?_, ?_, ?_, ?_⟩
  · rw [hstep]; simp [applyConnStep]
  · rw [hstep]; exact habmem
  · exact List.count_eq_one_of_mem hInvF.1 hmemF
  · intro u
    exact List.nodup_iff_count_le_one.mp hInvF.1 u

/-- Witness for C1: two connects with the first task still in flight when
the second connect's take-and-cancel fires. -/
theorem c1_single_flight_cancel_witness :
    connValid connInit
      ([ConnStep.takeAndSpawn, ConnStep.installHandle] ++
        ConnStep.takeAndSpawn :: []) = true
    ∧ liveTask (runConn connInit
        [ConnStep.takeAndSpawn, ConnStep.installHandle]) 0 = true
    ∧ ((runConn connInit
        ([ConnStep.takeAndSpawn, ConnStep.installHandle] ++
          [ConnStep.takeAndSpawn])).slot = none
      ∧ 0 ∈ (runConn connInit
          ([ConnStep.takeAndSpawn, ConnStep.installHandle] ++
            [ConnStep.takeAndSpawn])).aborted
      ∧ (runConn connInit
          ([ConnStep.takeAndSpawn, ConnStep.installHandle] ++
            ConnStep.takeAndSpawn :: [])).aborted.count 0 = 1
      ∧ (∀ u, (runConn connInit
          ([ConnStep.takeAndSpawn, ConnStep.installHandle] ++
            ConnStep.takeAndSpawn :: [])).aborted.count u ≤ 1)) :=
  ⟨by decide, by decide,
   c1_single_flight_cancel [ConnStep.takeAndSpawn, ConnStep.installHandle]
     [] 0 (by decide) (by decide)⟩

end Wlcontrol
